import Mathlib

set_option maxRecDepth 100000

/-!
Verification of the state-reconciliation engine of the `oracle_db` /
`oracle_datapatch` Ansible modules.  The Python source is shallowly embedded:
pure decision logic becomes Lean functions over the values the code reads
(command exit codes and captured output, SQL query results, `/etc/oratab`
lines), and the side-effecting reconciliation pass becomes a function
producing an explicit trace of observable events (connections, queries,
statements issued, stop/mount/start transitions, the settling delay, and the
final module exit).  External commands and SQL execution are assumed to
succeed on the success path; a failing command aborts the pass in the source
(`module.fail_json`) and is modelled where a claim needs it.
-/

namespace OracleDb

/-- Character-list prefix test (structural model of Python substring search). -/
def charsStartWith : List Char → List Char → Bool
  | [], _ => true
  | _ :: _, [] => false
  | a :: as, b :: bs => a == b && charsStartWith as bs

/-- Character-list substring test. -/
def charsContain (needle : List Char) : List Char → Bool
  | [] => charsStartWith needle []
  | b :: bs => charsStartWith needle (b :: bs) || charsContain needle bs

/-- Python `needle in hay` / `re.search(needle, hay)` for a literal pattern
(the registry keys and names the module handles contain no regex
metacharacters, so `re.search` is plain substring search). -/
def pyIn (needle hay : String) : Bool := charsContain needle.toList hay.toList

/-- Python `'%s' % opt` for an optional string: `None` prints as `"None"`. -/
def pyFmt : Option String → String
  | some s => s
  | none => "None"

/-- Python `hay.startswith(needle)`. -/
def pyStarts (needle hay : String) : Bool := charsStartWith needle.toList hay.toList

/-- Python `s.rstrip('/')`. -/
def pyRstripSlash (s : String) : String :=
  String.mk ((s.toList.reverse.dropWhile (fun c => c == '/')).reverse)

/-- Python `str.split(':')` on a character list (structural). -/
def splitColsAux : List Char → List Char → List (List Char)
  | [], acc => [acc.reverse]
  | c :: cs, acc =>
    if c == ':' then acc.reverse :: splitColsAux cs [] else splitColsAux cs (c :: acc)

/-- Python `line.split(':')[1]` (second colon-separated field of an oratab
line; the lines the claims use always have one). -/
def field1 (line : String) : String :=
  String.mk ((splitColsAux line.toList []).getD 1 [])

/-- Result of a `check_db_exists` call: the Python function returns
`True`, `False`, or falls off the end returning `None`, or aborts the whole
module via `module.fail_json` (modelled as `fail` with the message built). -/
inductive CheckResult
  | ret (b : Option Bool)
  | fail (msg : String)
  deriving DecidableEq, Repr

/-- Whether a `CheckResult` is the fatal `module.fail_json` outcome. -/
def CheckResult.isFatal : CheckResult → Bool
  | .fail _ => true
  | _ => false

/-- The "exists in a different ORACLE_HOME" message of both standalone
locators. -/
def oratabMsg (db_name path : String) : String :=
  "Database " ++ db_name ++ " already exists in a different ORACLE_HOME (" ++ path ++ ")"

/-- `oracle_db.check_db_exists`, cluster-managed (`gimanaged`) branch, as a
function of the `srvctl config database` outcome `(rc, stdout)`
(oracle_db.py lines 318-336). -/
def check_db_exists_gim (db_name : String) (_db_unique_name : Option String)
    (rc : Int) (stdout : String) : CheckResult :=
  if rc ≠ 0 then
    if pyIn "PRCD-1229" stdout then
      CheckResult.fail ("Database " ++ db_name ++
        " already exists in a different home. Stdout -> " ++ stdout)
    else if pyIn db_name stdout then CheckResult.ret (some false)
    else CheckResult.ret (some false)
  else if pyIn ("Database name: " ++ db_name) stdout then CheckResult.ret (some true)
  else CheckResult.ret (some true)

/-- `oracle_datapatch.check_db_exists`, cluster-managed branch
(oracle_datapatch.py lines 121-134): note it has no `PRCD-1229` test, and no
final `else` after the `elif` (the `None` fall-through). -/
def check_db_exists_gim_dp (db_name : String) (_db_unique_name : Option String)
    (rc : Int) (stdout : String) : CheckResult :=
  if rc ≠ 0 then
    if pyIn db_name stdout then CheckResult.ret (some false)
    else CheckResult.ret (some false)
  else if pyIn ("Database name: " ++ db_name) stdout then CheckResult.ret (some true)
  else CheckResult.ret none

/-- The `for dbs in existingdbs` loop of `oracle_db.check_db_exists`
(standalone branch, lines 351-369); `sid` is already normalized to `""` when
absent.  Falling off the loop returns Python `None`. -/
def check_db_loop (db_name sid oracle_home : String) : List String → CheckResult
  | [] => CheckResult.ret none
  | dbs :: rest =>
    if sid ≠ "" then
      if pyIn (db_name ++ ":") dbs || pyIn (sid ++ ":") dbs then
        if field1 dbs ≠ pyRstripSlash oracle_home then
          CheckResult.fail (oratabMsg db_name (field1 dbs))
        else CheckResult.ret (some true)
      else check_db_loop db_name sid oracle_home rest
    else
      if pyIn (db_name ++ ":") dbs then
        if field1 dbs ≠ pyRstripSlash oracle_home then
          CheckResult.fail (oratabMsg db_name (field1 dbs))
        else CheckResult.ret (some true)
      else check_db_loop db_name sid oracle_home rest

/-- `oracle_db.check_db_exists`, standalone branch (lines 337-369): `sid`
becomes `''` when `None`; `/etc/oratab` lines are filtered by unanchored
substring search for `db_name + ':'` or `sid + ':'`. -/
def check_db_exists_sa (db_name : String) (sidOpt : Option String)
    (oracle_home : String) (oratab : List String) : CheckResult :=
  let sid := sidOpt.getD ""
  let existingdbs := oratab.filter (fun line =>
    (!(pyStarts "#" line) && !(pyStarts " " line)) &&
      (pyIn (db_name ++ ":") line || pyIn (sid ++ ":") line))
  if existingdbs.isEmpty then CheckResult.ret (some false)
  else check_db_loop db_name sid oracle_home existingdbs

/-- The loop of `oracle_datapatch.check_db_exists` (standalone branch,
lines 149-167).  Here `sid` is NOT normalized: Python compares
`sid != ''` with `sid` possibly `None` (true), and formats it with `%s`. -/
def check_dp_loop (db_name : String) (sidOpt : Option String)
    (oracle_home : String) : List String → CheckResult
  | [] => CheckResult.ret none
  | dbs :: rest =>
    if sidOpt ≠ some "" then
      if pyIn (db_name ++ ":") dbs || pyIn (pyFmt sidOpt ++ ":") dbs then
        if field1 dbs ≠ pyRstripSlash oracle_home then
          CheckResult.fail (oratabMsg db_name (field1 dbs))
        else CheckResult.ret (some true)
      else
        if pyIn (db_name ++ ":") dbs then
          if field1 dbs ≠ pyRstripSlash oracle_home then
            CheckResult.fail (oratabMsg db_name (field1 dbs))
          else check_dp_loop db_name sidOpt oracle_home rest
        else if field1 dbs = pyRstripSlash oracle_home then CheckResult.ret (some true)
        else check_dp_loop db_name sidOpt oracle_home rest
    else check_dp_loop db_name sidOpt oracle_home rest

/-- `oracle_datapatch.check_db_exists`, standalone branch (lines 135-167):
its oratab filter is anchored (`re.search('^name:', line)`), unlike
`oracle_db`'s. -/
def check_db_exists_sa_dp (db_name : String) (sidOpt : Option String)
    (oracle_home : String) (oratab : List String) : CheckResult :=
  let existingdbs := oratab.filter (fun line =>
    (!(pyStarts "#" line) && !(pyStarts " " line)) &&
      (pyStarts (db_name ++ ":") line ||
        (sidOpt.isSome && pyStarts (pyFmt sidOpt ++ ":") line)))
  if existingdbs.isEmpty then CheckResult.ret (some false)
  else check_dp_loop db_name sidOpt oracle_home existingdbs

/-- Identifier handed to `dbca -deleteDatabase` by `oracle_db.remove_db`
(lines 489-502): `parallel` is column `PARALLEL` of `v$instance`
(`'YES'` on a RAC / multi-instance topology). -/
def remove_db_ident (gimanaged : Bool) (db_name : String)
    (sid db_unique_name : Option String) (parallel : String) : String :=
  if gimanaged then
    match db_unique_name with
    | some u => u
    | none =>
      match sid with
      | some s =>
        if parallel = "YES" then db_name
        else if parallel = "NO" then s
        else db_name
      | none => db_name
  else
    match sid with
    | some s => s
    | none => db_name

/-- The removal command line built by `remove_db` (lines 504-505). -/
def remove_db_command (oracle_home ident sys_password : String) : String :=
  oracle_home ++ "/bin/dbca -deleteDatabase -silent -sourceDB " ++ ident ++
    " -sysDBAUserName sys -sysDBAPassword " ++ sys_password

/-- A module termination: `module.exit_json` or `module.fail_json`. -/
inductive ModuleExit
  | exitJson (msg : String) (changed : Bool)
  | failJson (msg : String) (changed : Bool)
  deriving DecidableEq, Repr

/-- The `state == 'absent'` branch of `oracle_db.main` (lines 952-961),
with `output == 'short'`, as a function of whether `check_db_exists`
found the instance and of the removal command's exit code. -/
def main_absent (db_name : String) (found : Bool) (removeRc : Int)
    (removeStdout : String) : ModuleExit :=
  if found then
    if removeRc ≠ 0 then
      ModuleExit.failJson ("Removal of database " ++ db_name ++ " failed: " ++ removeStdout) false
    else
      ModuleExit.exitJson ("Successfully removed database " ++ db_name) true
  else
    ModuleExit.exitJson ("Database " ++ db_name ++ " doesn\x27t exist") false

/-- Inputs of one `ensure_db_state` pass: the declared (module-parameter)
properties and the rows the three opening queries return.  `def_tbs_type`,
`def_tbs`, `def_temp_tbs` are the three values of `propsql` in the order the
code unpacks them (line 527); `log_mode`, `force_logging_obs`,
`flashback_on` are the `v$database` row (line 535). -/
structure EnsureIn where
  archivelog : Bool
  force_logging : Bool
  flashback : Bool
  default_tablespace_type : String
  default_tablespace : Option String
  default_temp_tablespace : Option String
  def_tbs_type : String
  def_tbs : String
  def_temp_tbs : String
  log_mode : String
  force_logging_obs : String
  flashback_on : String
  newdb : Bool

/-- `archcomp` (lines 542-547). -/
def archcomp (i : EnsureIn) : String :=
  if i.archivelog then "ARCHIVELOG" else "NOARCHIVELOG"

/-- `archsql` (lines 542-547). -/
def archsql (i : EnsureIn) : String :=
  if i.archivelog then "alter database archivelog" else "alter database noarchivelog"

/-- `flcomp` (lines 549-554). -/
def flcomp (i : EnsureIn) : String :=
  if i.force_logging then "YES" else "NO"

/-- `flsql` (lines 549-554). -/
def flsql (i : EnsureIn) : String :=
  if i.force_logging then "alter database force logging" else "alter database no force logging"

/-- `fbcomp` (lines 556-561). -/
def fbcomp (i : EnsureIn) : String :=
  if i.flashback then "YES" else "NO"

/-- `fbsql` (lines 556-561). -/
def fbsql (i : EnsureIn) : String :=
  if i.flashback then "alter database flashback on" else "alter database flashback off"

/-- The no-restart change list `change_db_sql` in the order the code appends
to it (lines 563-573, 578-582). -/
def change_db_sql (i : EnsureIn) : List String :=
  (if i.def_tbs_type ≠ i.default_tablespace_type then
    ["alter database set default " ++ i.default_tablespace_type ++ " tablespace "]
  else []) ++
  (match i.default_tablespace with
   | some t => if i.def_tbs ≠ t then ["alter database default tablespace " ++ t] else []
   | none => []) ++
  (match i.default_temp_tablespace with
   | some t =>
     if i.def_temp_tbs ≠ t then ["alter database default temporary tablespace " ++ t] else []
   | none => []) ++
  (if i.force_logging_obs ≠ flcomp i then [flsql i] else []) ++
  (if i.flashback_on ≠ fbcomp i then [fbsql i] else [])

/-- The restart change list `change_restart_sql` (lines 575-576). -/
def change_restart_sql (i : EnsureIn) : List String :=
  if i.log_mode ≠ archcomp i then [archsql i] else []

/-- The special cross-property condition of line 586: live archivelog mode,
live flashback on, and the declared state turns both off. -/
def special (i : EnsureIn) : Prop :=
  i.log_mode = "ARCHIVELOG" ∧ i.flashback_on = "YES" ∧
    i.archivelog = false ∧ i.flashback = false

instance (i : EnsureIn) : Decidable (special i) := by
  unfold special; infer_instance

/-- Observable events of a reconciliation pass. -/
inductive Event
  | connect
  | sqlGet (sql : String)
  | sqlExec (sql : String)
  | stopDb
  | startMount
  | sleepSettle (secs : Nat)
  | startDb
  | exitJson (changed : Bool)
  deriving DecidableEq, Repr

/-- The `propsql` text (lines 524-526). -/
def propsql : String :=
  "select lower(property_value) from database_properties" ++
    " where property_name in (\x27DEFAULT_TBS_TYPE\x27,\x27DEFAULT_PERMANENT_TABLESPACE\x27,\x27DEFAULT_TEMP_TABLESPACE\x27)" ++
    " order by 1"

/-- The `israc_sql` text (line 528). -/
def israc_sql : String := "select parallel,instance_name,host_name from v$instance"

/-- The `log_check_sql` text (line 534). -/
def log_check_sql : String := "select log_mode,force_logging, flashback_on from v$database"

/-- Events of `apply_restart_changes` on its success path (lines 619-628):
stop, start to mount, the fixed 10 second settling delay, a fresh
administrative connection, then per statement execute / stop / start. -/
def apply_restart_changes_tr (stmts : List String) : List Event :=
  Event.stopDb :: Event.startMount :: Event.sleepSettle 10 :: Event.connect ::
    stmts.flatMap (fun s => [Event.sqlExec s, Event.stopDb, Event.startDb])

/-- Events of `apply_norestart_changes` (lines 639-642): a fresh connection,
then the statements in order. -/
def apply_norestart_changes_tr (stmts : List String) : List Event :=
  Event.connect :: stmts.map Event.sqlExec

/-- The opening of `ensure_db_state`: one connection and the three
read-only queries, in source order (lines 521-535). -/
def startReads : List Event :=
  [Event.connect, Event.sqlGet propsql, Event.sqlGet israc_sql, Event.sqlGet log_check_sql]

/-- The plan-execution part of `ensure_db_state` (lines 584-604). -/
def ensure_body (i : EnsureIn) : List Event :=
  if 0 < (change_db_sql i).length ∨ 0 < (change_restart_sql i).length then
    (if special i then
      (if 0 < (change_db_sql i).length then
        apply_norestart_changes_tr (change_db_sql i) else []) ++
      (if 0 < (change_restart_sql i).length then
        apply_restart_changes_tr (change_restart_sql i) else [])
    else
      (if 0 < (change_restart_sql i).length then
        apply_restart_changes_tr (change_restart_sql i) else []) ++
      (if 0 < (change_db_sql i).length then
        apply_norestart_changes_tr (change_db_sql i) else [])) ++
    [Event.exitJson true]
  else
    [Event.exitJson i.newdb]

/-- Event trace of one `ensure_db_state` pass (lines 518-616). -/
def ensure_db_state_tr (i : EnsureIn) : List Event :=
  startReads ++ ensure_body i

/-- Lexicographic strict order on character lists (binary collation, which
is how the queried lowercase names sort). -/
def charsLt : List Char → List Char → Bool
  | [], [] => false
  | [], _ :: _ => true
  | _ :: _, [] => false
  | a :: as, b :: bs => if a < b then true else if b < a then false else charsLt as bs

/-- Lexicographic order on strings. -/
def strLtB (a b : String) : Bool := charsLt a.toList b.toList

/-- Python `str.lower()` (the query itself applies `lower(...)`). -/
def lowerStr (s : String) : String := String.mk (s.toList.map Char.toLower)

/-- Ascending insertion (models SQL `order by 1` on the queried values). -/
def insertAsc (x : String) : List String → List String
  | [] => [x]
  | y :: ys => if strLtB y x then y :: insertAsc x ys else x :: y :: ys

/-- Sort a row list ascending, as `order by 1` does. -/
def orderByValue (l : List String) : List String := l.foldr insertAsc []

/-- What `ensure_db_state` lines 524-527 observe: `propsql` lowers the three
property values and sorts them alphabetically (`order by 1`), and the code
unpacks the sorted rows positionally into
`(def_tbs_type, def_tbs, def_temp_tbs)`.  Inputs are the live values of
`DEFAULT_TBS_TYPE`, `DEFAULT_PERMANENT_TABLESPACE`, `DEFAULT_TEMP_TABLESPACE`
in that order. -/
def inspectDefaults (ttype tbs temp : String) : String × String × String :=
  match orderByValue [lowerStr ttype, lowerStr tbs, lowerStr temp] with
  | [a, b, c] => (a, b, c)
  | _ => ("", "", "")

/-- Discriminator for read queries in a trace. -/
def isGet : Event → Bool
  | .sqlGet _ => true
  | _ => false

/-- Discriminator for the stop transition in a trace. -/
def isStop : Event → Bool
  | .stopDb => true
  | _ => false

lemma takeWhile_append_of_all {α : Type} (p : α → Bool) (l1 l2 : List α)
    (h : ∀ a ∈ l1, p a = true) :
    (l1 ++ l2).takeWhile p = l1 ++ l2.takeWhile p := by
  induction l1 with
  | nil => simp
  | cons a l ih =>
    have ha : p a = true := h a (List.mem_cons_self a l)
    simp [List.takeWhile_cons, ha, ih (fun b hb => h b (List.mem_cons_of_mem a hb))]

lemma filter_isGet_execs (l : List String) :
    (l.map Event.sqlExec).filter isGet = [] := by
  induction l with
  | nil => rfl
  | cons a l ih => simp [List.filter_cons, isGet, ih]

lemma filter_isGet_flat (l : List String) :
    (l.flatMap (fun s => [Event.sqlExec s, Event.stopDb, Event.startDb])).filter isGet
      = [] := by
  induction l with
  | nil => rfl
  | cons a l ih =>
    simp [List.flatMap_cons, List.filter_append, List.filter_cons, isGet, ih]

lemma filter_isGet_norestart (l : List String) :
    (apply_norestart_changes_tr l).filter isGet = [] := by
  simp [apply_norestart_changes_tr, List.filter_cons, isGet, filter_isGet_execs]

lemma filter_isGet_restart (l : List String) :
    (apply_restart_changes_tr l).filter isGet = [] := by
  simp [apply_restart_changes_tr, List.filter_cons, isGet, filter_isGet_flat]

/-- Instance for claims C1 and C5's witnesses and C4's counterexample base:
live archivelog mode with flashback on, declared state turning both off. -/
def ex1 : EnsureIn :=
  { archivelog := false, force_logging := false, flashback := false
    default_tablespace_type := "smallfile", default_tablespace := some "users"
    default_temp_tablespace := some "temp"
    def_tbs_type := "smallfile", def_tbs := "users", def_temp_tbs := "temp"
    log_mode := "ARCHIVELOG", force_logging_obs := "NO", flashback_on := "YES"
    newdb := false }

/-- Instance for claim C2's witness: archivelog and flashback both declared
on, both observed off. -/
def ex2 : EnsureIn :=
  { archivelog := true, force_logging := false, flashback := true
    default_tablespace_type := "smallfile", default_tablespace := some "users"
    default_temp_tablespace := some "temp"
    def_tbs_type := "smallfile", def_tbs := "users", def_temp_tbs := "temp"
    log_mode := "NOARCHIVELOG", force_logging_obs := "NO", flashback_on := "NO"
    newdb := false }

/-- Instance for claim C4's counterexample: a restart-class divergence
(archivelog off → on) together with an immediate one (force logging). -/
def ex4 : EnsureIn :=
  { archivelog := true, force_logging := true, flashback := false
    default_tablespace_type := "smallfile", default_tablespace := some "users"
    default_temp_tablespace := some "temp"
    def_tbs_type := "smallfile", def_tbs := "users", def_temp_tbs := "temp"
    log_mode := "NOARCHIVELOG", force_logging_obs := "NO", flashback_on := "NO"
    newdb := false }

/-- Instance for claim C5's witness: declared equal to observed everywhere. -/
def ex5 : EnsureIn :=
  { archivelog := true, force_logging := true, flashback := true
    default_tablespace_type := "bigfile", default_tablespace := some "users"
    default_temp_tablespace := some "temp"
    def_tbs_type := "bigfile", def_tbs := "users", def_temp_tbs := "temp"
    log_mode := "ARCHIVELOG", force_logging_obs := "YES", flashback_on := "YES"
    newdb := false }

/-- Instance for claim C7's witness: only archivelog diverges (off → on). -/
def ex7 : EnsureIn :=
  { archivelog := true, force_logging := false, flashback := false
    default_tablespace_type := "smallfile", default_tablespace := none
    default_temp_tablespace := none
    def_tbs_type := "smallfile", def_tbs := "users", def_temp_tbs := "temp"
    log_mode := "NOARCHIVELOG", force_logging_obs := "NO", flashback_on := "NO"
    newdb := false }

/-- Instance for claim C9: declared values equal the live values
`DEFAULT_TBS_TYPE = smallfile`, `DEFAULT_PERMANENT_TABLESPACE = users`,
`DEFAULT_TEMP_TABLESPACE = temp`, while the observed triple is whatever the
sorted query hands back positionally. -/
def ex9 : EnsureIn :=
  { archivelog := false, force_logging := false, flashback := false
    default_tablespace_type := "smallfile", default_tablespace := some "users"
    default_temp_tablespace := some "temp"
    def_tbs_type := (inspectDefaults "smallfile" "users" "temp").1
    def_tbs := (inspectDefaults "smallfile" "users" "temp").2.1
    def_temp_tbs := (inspectDefaults "smallfile" "users" "temp").2.2
    log_mode := "NOARCHIVELOG", force_logging_obs := "NO", flashback_on := "NO"
    newdb := false }

/-- Stdout of `srvctl config database` when the database is registered under
a different installation: the PRCD-1229 signal. -/
def cex3out : String :=
  "PRCD-1229 : An attempt to access configuration of database orcl was rejected because its ORACLE_HOME /opt/db/a differs from the requested one"

/-- The identifier resolution claim C6 asserts, following the spec's words:
cluster unique-name under cluster-managed mode, else the instance-id when
the topology is multi-instance, else the name.  For comparison with
`remove_db_ident`, the definition taken from the source. -/
def remove_db_ident_claimed (gimanaged : Bool) (db_name : String)
    (sid db_unique_name : Option String) (multiInstance : Bool) : String :=
  if gimanaged ∧ db_unique_name.isSome then db_unique_name.getD db_name
  else if sid.isSome ∧ multiInstance then sid.getD db_name
  else db_name

lemma filter_isGet_body (i : EnsureIn) : (ensure_body i).filter isGet = [] := by
  simp only [ensure_body]
  split
  · rw [List.filter_append]
    have hx : [Event.exitJson true].filter isGet = [] := rfl
    rw [hx, List.append_nil]
    split <;>
      simp [List.filter_append, apply_ite (List.filter isGet),
        filter_isGet_norestart, filter_isGet_restart]
  · rfl

/-- C1: whenever the live instance is in archivelog mode with flashback on
and the declared state turns both archivelog and flashback off, every
Immediate-class statement (the `change_db_sql` batch, flashback-off
included) is issued strictly before the first stop of the RequiresRestart
batch, and that restart batch does begin (a stop occurs). -/
theorem claim1 (i : EnsureIn) (h1 : i.log_mode = "ARCHIVELOG")
    (h2 : i.flashback_on = "YES") (h3 : i.archivelog = false)
    (h4 : i.flashback = false) :
    (∀ s ∈ change_db_sql i,
        Event.sqlExec s ∈ (ensure_db_state_tr i).takeWhile (fun e => !(isStop e))) ∧
      Event.stopDb ∈ ensure_db_state_tr i := by
  have hsp : special i := ⟨h1, h2, h3, h4⟩
  have hfbc : fbcomp i = "NO" := by simp [fbcomp, h4]
  have hfb : fbsql i ∈ change_db_sql i := by
    have hc : i.flashback_on ≠ fbcomp i := by
      rw [h2, hfbc]; decide
    simp [change_db_sql, hc]
  have hcdb : 0 < (change_db_sql i).length := List.length_pos_of_mem hfb
  have ha : archcomp i = "NOARCHIVELOG" := by simp [archcomp, h3]
  have hcrs : change_restart_sql i = [archsql i] := by
    rw [change_restart_sql, h1, ha, if_pos (by decide)]
  have hcrspos : 0 < (change_restart_sql i).length := by rw [hcrs]; simp
  have htr : ensure_db_state_tr i =
      (startReads ++ apply_norestart_changes_tr (change_db_sql i)) ++
        (apply_restart_changes_tr (change_restart_sql i) ++ [Event.exitJson true]) := by
    unfold ensure_db_state_tr ensure_body
    rw [if_pos (Or.inl hcdb), if_pos hsp, if_pos hcdb, if_pos hcrspos]
    simp [List.append_assoc]
  have hall : ∀ a ∈ startReads ++ apply_norestart_changes_tr (change_db_sql i),
      (!(isStop a)) = true := by
    intro a hmem
    simp [startReads, apply_norestart_changes_tr] at hmem
    rcases hmem with rfl | rfl | rfl | rfl | rfl | ⟨t, -, rfl⟩ <;> rfl
  constructor
  · intro s hs
    have hsplit := takeWhile_append_of_all (fun e => !(isStop e))
      (startReads ++ apply_norestart_changes_tr (change_db_sql i))
      (apply_restart_changes_tr (change_restart_sql i) ++ [Event.exitJson true]) hall
    have hB : (apply_restart_changes_tr (change_restart_sql i) ++
        [Event.exitJson true]).takeWhile (fun e => !(isStop e)) = [] := rfl
    rw [htr, hsplit, hB, List.append_nil]
    refine List.mem_append_right _ ?_
    exact List.mem_cons_of_mem _ (List.mem_map_of_mem _ hs)
  · rw [htr]
    refine List.mem_append_right _ (List.mem_append_left _ ?_)
    exact List.mem_cons_self _ _

/-- C1 witness: at `ex1` (archivelog on → off, flashback on → off) the
flashback-off statement is issued before any stop. -/
theorem claim1_w :
    Event.sqlExec "alter database flashback off" ∈
      (ensure_db_state_tr ex1).takeWhile (fun e => !(isStop e)) ∧
    Event.stopDb ∈ ensure_db_state_tr ex1 :=
  ⟨(claim1 ex1 rfl rfl rfl rfl).1 "alter database flashback off" (by decide),
   (claim1 ex1 rfl rfl rfl rfl).2⟩

/-- C2: in any combination other than the special both-off one, a pass with
both a RequiresRestart and an Immediate divergence runs the restart batch
first and the immediate batch second; in particular when archivelog and
flashback both go from off to on, the restart cycle's final start happens
before the flashback-on statement is issued, and flashback-on is issued. -/
theorem claim2 (i : EnsureIn) (hns : ¬ special i)
    (hr : 0 < (change_restart_sql i).length) (hd : 0 < (change_db_sql i).length) :
    ensure_db_state_tr i =
      (startReads ++ apply_restart_changes_tr (change_restart_sql i)) ++
        (apply_norestart_changes_tr (change_db_sql i) ++ [Event.exitJson true]) ∧
    (i.archivelog = true → i.flashback = true → i.log_mode = "NOARCHIVELOG" →
      i.flashback_on = "NO" →
        Event.startDb ∈ (ensure_db_state_tr i).takeWhile
            (fun e => !(e == Event.sqlExec "alter database flashback on")) ∧
          Event.sqlExec "alter database flashback on" ∈ ensure_db_state_tr i) := by
  have htr : ensure_db_state_tr i =
      (startReads ++ apply_restart_changes_tr (change_restart_sql i)) ++
        (apply_norestart_changes_tr (change_db_sql i) ++ [Event.exitJson true]) := by
    unfold ensure_db_state_tr ensure_body
    rw [if_pos (Or.inl hd), if_neg hns, if_pos hr, if_pos hd]
    simp [List.append_assoc]
  refine ⟨htr, ?_⟩
  intro ha hf hl hfbon
  have harch : archsql i = "alter database archivelog" := by simp [archsql, ha]
  have hac : archcomp i = "ARCHIVELOG" := by simp [archcomp, ha]
  have hcrs : change_restart_sql i = ["alter database archivelog"] := by
    rw [change_restart_sql, hl, hac, if_pos (by decide), harch]
  have hfbc : fbcomp i = "YES" := by simp [fbcomp, hf]
  have hfbs : fbsql i = "alter database flashback on" := by simp [fbsql, hf]
  have hfbm : Event.sqlExec "alter database flashback on" ∈
      apply_norestart_changes_tr (change_db_sql i) := by
    have hm : fbsql i ∈ change_db_sql i := by
      have hc : i.flashback_on ≠ fbcomp i := by
        rw [hfbon, hfbc]; decide
      simp [change_db_sql, hc]
    rw [← hfbs]
    exact List.mem_cons_of_mem _ (List.mem_map_of_mem _ hm)
  constructor
  · have hsplit := takeWhile_append_of_all
      (fun e => !(e == Event.sqlExec "alter database flashback on"))
      (startReads ++ apply_restart_changes_tr ["alter database archivelog"])
      (apply_norestart_changes_tr (change_db_sql i) ++ [Event.exitJson true])
      (by decide)
    rw [htr, hcrs, hsplit]
    exact List.mem_append_left _ (by decide)
  · rw [htr]
    exact List.mem_append_right _ (List.mem_append_left _ hfbm)

/-- C2 witness: at `ex2` (archivelog off → on, flashback off → on) the
restart batch precedes the immediate batch and start precedes
flashback-on. -/
theorem claim2_w :
    ensure_db_state_tr ex2 =
      (startReads ++ apply_restart_changes_tr (change_restart_sql ex2)) ++
        (apply_norestart_changes_tr (change_db_sql ex2) ++ [Event.exitJson true]) ∧
    Event.startDb ∈ (ensure_db_state_tr ex2).takeWhile
        (fun e => !(e == Event.sqlExec "alter database flashback on")) ∧
    Event.sqlExec "alter database flashback on" ∈ ensure_db_state_tr ex2 := by
  have h := claim2 ex2 (by decide) (by decide) (by decide)
  exact ⟨h.1, (h.2 rfl rfl rfl rfl).1, (h.2 rfl rfl rfl rfl).2⟩

/-- C3 counterexample: the claim says both modules' locators signal a fatal
DivergentInstallation and never NotFound, but on the very signal
(`PRCD-1229` in a failing `srvctl config` output) that `oracle_db`'s
cluster-mode locator treats as fatal, `oracle_datapatch`'s cluster-mode
locator returns `False` (NotFound). -/
theorem claim3_cex :
    check_db_exists_gim_dp "orcl" none 1 cex3out = CheckResult.ret (some false) ∧
    CheckResult.isFatal (check_db_exists_gim_dp "orcl" none 1 cex3out) = false ∧
    check_db_exists_gim "orcl" none 1 cex3out =
      CheckResult.fail
        ("Database " ++ "orcl" ++ " already exists in a different home. Stdout -> " ++ cex3out) := by
  decide

/-- C3 as amended: `oracle_db`'s locator signals a fatal error on the
different-installation signal in both control modes (PRCD-1229 under
cluster management, a different-home oratab entry standalone), and
`oracle_datapatch`'s standalone locator does too, but `oracle_datapatch`'s
cluster-mode locator returns NotFound on that same signal. -/
theorem claim3_amended :
    (∀ (db : String) (uniq : Option String) (rc : Int) (out : String),
        rc ≠ 0 → pyIn "PRCD-1229" out = true →
        check_db_exists_gim db uniq rc out =
          CheckResult.fail ("Database " ++ db ++
            " already exists in a different home. Stdout -> " ++ out) ∧
        check_db_exists_gim_dp db uniq rc out = CheckResult.ret (some false)) ∧
    check_db_exists_sa "orcl" none "/opt/db/b" ["orcl:/opt/db/a:N"] =
      CheckResult.fail (oratabMsg "orcl" "/opt/db/a") ∧
    check_db_exists_sa_dp "orcl" (some "orcl") "/opt/db/b" ["orcl:/opt/db/a:N"] =
      CheckResult.fail (oratabMsg "orcl" "/opt/db/a") := by
  refine ⟨?_, by decide, by decide⟩
  intro db uniq rc out hrc hp
  constructor
  · unfold check_db_exists_gim
    rw [if_pos hrc, if_pos hp]
  · unfold check_db_exists_gim_dp
    rw [if_pos hrc]
    by_cases h : pyIn db out = true
    · rw [if_pos h]
    · rw [if_neg h]

/-- C3 witness: the amended claim instantiated at the concrete PRCD-1229
output. -/
theorem claim3_w :
    check_db_exists_gim "orcl" none 1 cex3out =
      CheckResult.fail ("Database " ++ "orcl" ++
        " already exists in a different home. Stdout -> " ++ cex3out) ∧
    check_db_exists_gim_dp "orcl" none 1 cex3out = CheckResult.ret (some false) :=
  claim3_amended.1 "orcl" none 1 cex3out (by decide) (by decide)

/-- C4 counterexample: at `ex4` (archivelog off → on, plus an immediate
force-logging divergence) the pass issues the immediate statement after the
restart batch without any intervening read: once the first stop happens, no
further query event occurs, though the property queries do occur at the
start. -/
theorem claim4_cex :
    ((ensure_db_state_tr ex4).dropWhile (fun e => !(isStop e))).filter isGet = [] ∧
    Event.sqlExec "alter database force logging" ∈
      ((ensure_db_state_tr ex4).dropWhile (fun e => !(isStop e))) ∧
    Event.sqlGet log_check_sql ∈ ensure_db_state_tr ex4 := by
  decide

/-- C4 as amended: the engine reads the observed properties exactly once, at
the start of the pass (the three opening queries), and both action batches
are computed and executed from that single observation; no re-read happens
after any batch. -/
theorem claim4_amended (i : EnsureIn) :
    (ensure_db_state_tr i).filter isGet =
      [Event.sqlGet propsql, Event.sqlGet israc_sql, Event.sqlGet log_check_sql] := by
  unfold ensure_db_state_tr
  rw [List.filter_append, filter_isGet_body, List.append_nil]
  rfl

/-- C5: when the declared properties equal the observed ones (the three
`v$database` columns match their comparison values and the three unpacked
default-tablespace values match the declared ones), both change lists are
empty and a pass on an existing database exits with changed = false. -/
theorem claim5 (i : EnsureIn) (h0 : i.newdb = false)
    (h1 : i.log_mode = archcomp i) (h2 : i.force_logging_obs = flcomp i)
    (h3 : i.flashback_on = fbcomp i) (h4 : i.def_tbs_type = i.default_tablespace_type)
    (h5 : i.default_tablespace = some i.def_tbs)
    (h6 : i.default_temp_tablespace = some i.def_temp_tbs) :
    change_db_sql i = [] ∧ change_restart_sql i = [] ∧
      ensure_db_state_tr i = startReads ++ [Event.exitJson false] := by
  have hd : change_db_sql i = [] := by
    unfold change_db_sql
    rw [h5, h6]
    simp [h2, h3, h4]
  have hr : change_restart_sql i = [] := by
    simp [change_restart_sql, h1]
  refine ⟨hd, hr, ?_⟩
  unfold ensure_db_state_tr ensure_body
  rw [hd, hr]
  simp [h0]

/-- C5 witness: at `ex5` (declared equal to observed everywhere) the plan is
empty and the pass exits with changed = false. -/
theorem claim5_w :
    change_db_sql ex5 = [] ∧ change_restart_sql ex5 = [] ∧
      ensure_db_state_tr ex5 = startReads ++ [Event.exitJson false] :=
  claim5 ex5 rfl rfl rfl rfl rfl rfl rfl

/-- C6 counterexample: under cluster management with no unique name, a sid,
and a multi-instance topology (`PARALLEL = YES`), the code passes the plain
database name to the removal command, not the sid the claim's resolution
rule picks. -/
theorem claim6_cex :
    remove_db_ident true "orcl" (some "orcl1") none "YES" = "orcl" ∧
    remove_db_ident_claimed true "orcl" (some "orcl1") none true = "orcl1" ∧
    remove_db_ident true "orcl" (some "orcl1") none "YES" ≠
      remove_db_ident_claimed true "orcl" (some "orcl1") none true := by
  decide

/-- C6 as amended: the removal identifier is the cluster unique-name when
declared; otherwise, under cluster management, the sid when one is given and
the topology is single-instance (`PARALLEL = NO`) and the database name when
it is multi-instance; standalone, the sid when given, else the name.  The
identifier is spliced into the `dbca -deleteDatabase` command line, and a
found-instance removal pass whose command succeeds exits with
changed = true. -/
theorem claim6_amended : ∀ (db u s par home pw out : String),
    remove_db_ident true db (some s) (some u) par = u ∧
    remove_db_ident true db none (some u) par = u ∧
    remove_db_ident true db (some s) none "NO" = s ∧
    remove_db_ident true db (some s) none "YES" = db ∧
    remove_db_ident true db none none par = db ∧
    remove_db_ident false db (some s) none par = s ∧
    remove_db_ident false db none none par = db ∧
    remove_db_command home s pw =
      home ++ "/bin/dbca -deleteDatabase -silent -sourceDB " ++ s ++
        " -sysDBAUserName sys -sysDBAPassword " ++ pw ∧
    main_absent db true 0 out =
      ModuleExit.exitJson ("Successfully removed database " ++ db) true := by
  intro db u s par home pw out
  refine ⟨rfl, rfl, ?_, ?_, rfl, rfl, rfl, rfl, ?_⟩
  · show (if ("NO" : String) = "YES" then db else
      if ("NO" : String) = "NO" then s else db) = s
    rw [if_neg (by decide), if_pos rfl]
  · show (if ("YES" : String) = "YES" then db else
      if ("YES" : String) = "NO" then s else db) = db
    rw [if_pos rfl]
  · show (if (0 : Int) ≠ 0 then
        ModuleExit.failJson ("Removal of database " ++ db ++ " failed: " ++ out) false
      else ModuleExit.exitJson ("Successfully removed database " ++ db) true) =
      ModuleExit.exitJson ("Successfully removed database " ++ db) true
    rw [if_neg (by decide)]

/-- C7: with only an archivelog off → on divergence declared, the plan holds
exactly the enable-archivelog restart statement and no immediate statement,
a singleton restart batch always runs stop, start-to-mount, the fixed
10-second settling delay, a fresh connection, the statement, stop, start,
and the whole pass trace is exactly that cycle. -/
theorem claim7 (i : EnsureIn) (h1 : i.archivelog = true) (h2 : i.flashback = false)
    (h3 : i.force_logging = false) (h4 : i.log_mode = "NOARCHIVELOG")
    (h5 : i.flashback_on = "NO") (h6 : i.force_logging_obs = "NO")
    (h7 : i.def_tbs_type = i.default_tablespace_type)
    (h8 : i.default_tablespace = none) (h9 : i.default_temp_tablespace = none) :
    change_restart_sql i = ["alter database archivelog"] ∧
    change_db_sql i = [] ∧
    (∀ s, apply_restart_changes_tr [s] =
      [Event.stopDb, Event.startMount, Event.sleepSettle 10, Event.connect,
       Event.sqlExec s, Event.stopDb, Event.startDb]) ∧
    ensure_db_state_tr i = startReads ++
      [Event.stopDb, Event.startMount, Event.sleepSettle 10, Event.connect,
       Event.sqlExec "alter database archivelog", Event.stopDb, Event.startDb,
       Event.exitJson true] := by
  have hac : archcomp i = "ARCHIVELOG" := by simp [archcomp, h1]
  have harch : archsql i = "alter database archivelog" := by simp [archsql, h1]
  have hcrs : change_restart_sql i = ["alter database archivelog"] := by
    rw [change_restart_sql, h4, hac, if_pos (by decide), harch]
  have hcdb : change_db_sql i = [] := by
    unfold change_db_sql
    rw [h8, h9]
    simp [h5, h6, h7, flcomp, fbcomp, h2, h3]
  have hns : ¬ special i := by
    intro hsp
    unfold special at hsp
    rw [h4] at hsp
    exact absurd hsp.1 (by decide)
  refine ⟨hcrs, hcdb, fun s => rfl, ?_⟩
  unfold ensure_db_state_tr ensure_body
  rw [hcdb, hcrs]
  rw [if_pos (Or.inr (by simp)), if_neg hns, if_pos (by simp), if_neg (by simp)]
  rfl

/-- C7 witness: the scenario at `ex7`. -/
theorem claim7_w :
    change_restart_sql ex7 = ["alter database archivelog"] ∧
    change_db_sql ex7 = [] ∧
    (∀ s, apply_restart_changes_tr [s] =
      [Event.stopDb, Event.startMount, Event.sleepSettle 10, Event.connect,
       Event.sqlExec s, Event.stopDb, Event.startDb]) ∧
    ensure_db_state_tr ex7 = startReads ++
      [Event.stopDb, Event.startMount, Event.sleepSettle 10, Event.connect,
       Event.sqlExec "alter database archivelog", Event.stopDb, Event.startDb,
       Event.exitJson true] :=
  claim7 ex7 rfl rfl rfl rfl rfl rfl rfl rfl rfl

/-- C8: a `state = absent` pass on an instance that was not found exits
successfully with changed = false, whatever the (never-run) removal
command would have returned; no failure is raised. -/
theorem claim8 (db : String) (rc : Int) (out : String) :
    main_absent db false rc out =
      ModuleExit.exitJson ("Database " ++ db ++ " doesn\x27t exist") false := rfl

/-- C9: `ensure_db_state` sorts the three default-tablespace property values
alphabetically and unpacks them positionally, so for live values
(smallfile, users, temp) the slot read as the default permanent tablespace
receives the temp tablespace's value; with the declared values equal to the
live ones, the pass still emits two spurious alter statements. -/
theorem claim9 :
    inspectDefaults "smallfile" "users" "temp" = ("smallfile", "temp", "users") ∧
    (inspectDefaults "smallfile" "users" "temp").2.1 ≠ "users" ∧
    change_db_sql ex9 = ["alter database default tablespace users",
      "alter database default temporary tablespace temp"] := by
  decide

/-- C10: in standalone mode with no sid, the oratab scan matches by
unanchored substring, so the single entry `xorcl:...` is taken for the
requested name `orcl`: with a different path the module fails as
different-ORACLE_HOME, and with the same path it reports the database as
existing — though no entry is named exactly `orcl`. -/
theorem claim10 :
    check_db_exists_sa "orcl" none "/opt/db/a" ["xorcl:/opt/db/b:N"] =
      CheckResult.fail (oratabMsg "orcl" "/opt/db/b") ∧
    check_db_exists_sa "orcl" none "/opt/db/a" ["xorcl:/opt/db/a:N"] =
      CheckResult.ret (some true) := by
  decide

end OracleDb
